import Mathlib

/-!
Verification of the routing/orchestration decision engine of the
`python-agents-demo` repository, as implemented in
`src/agents/orchestrator_agent.py` (class `OrchestratorAgent`) and
`src/agents/support_email_agent.py` (method `is_email_format`).

The Python source is shallowly embedded: pure routing logic becomes pure
Lean functions over `String`; asynchronous agent invocations become an
explicit environment record `AgentEnv` of call outcomes
(`Except String String`, where `Except.error` models a raised exception);
execution order of external calls is recorded as an explicit event trace.
-/

/-! ## Python string primitives -/

/-- Characters that `str.split()`, `str.strip()` and the `\s` regex class
treat as whitespace in the ASCII range. -/
def isPySpace (c : Char) : Bool :=
  c == ' ' || c == '\t' || c == '\n' || c == '\x0d' || c == '\x0b' || c == '\x0c'

/-- ASCII lower-casing of a character, as `str.lower()` does on ASCII input. -/
def pyLowerChar (c : Char) : Char :=
  if 'A' ≤ c && c ≤ 'Z' then Char.ofNat (c.toNat + 32) else c

/-- `str.lower()` on the character list of a string. -/
def pyLowerList (cs : List Char) : List Char := cs.map pyLowerChar

/-- `str.lower()`. -/
def pyLower (s : String) : String := ⟨pyLowerList s.data⟩

/-- Does `needle` occur at the start of `hay`? -/
def isPrefixCh : List Char → List Char → Bool
  | [], _ => true
  | _ :: _, [] => false
  | n :: ns, h :: hs => n == h && isPrefixCh ns hs

/-- Does `needle` occur anywhere in `hay`?  This is Python's substring
operator `needle in hay`. -/
def containsSub (needle : List Char) : List Char → Bool
  | [] => isPrefixCh needle []
  | h :: hs => isPrefixCh needle (h :: hs) || containsSub needle hs

/-- Python's `sub in s` test on strings. -/
def pyIn (sub s : String) : Bool := containsSub sub.data s.data

/-- `len(s.split())`: the number of maximal non-whitespace runs. -/
def pyWordCountList : List Char → Bool → Nat
  | [], _ => 0
  | c :: cs, inWord =>
    if isPySpace c then pyWordCountList cs false
    else (if inWord then 0 else 1) + pyWordCountList cs true

/-- `len(s.split())`. -/
def pyWordCount (s : String) : Nat := pyWordCountList s.data false

/-! ## The email-format regex classifier (`SupportEmailAgent.is_email_format`)

The source checks the lowercased message against a disjunction of regex
patterns via `re.search`.  Each pattern is a sequence of literal characters
and the character-class repetitions `\s*`, `\s+`, `\w+`, which we model with
a small backtracking matcher. -/

/-- One token of a source regex pattern: a literal character, `\s*`, `\s+`,
`\w*` or `\w+`. -/
inductive RTok where
  | lit (c : Char)
  | ws0
  | ws1
  | word0
  | word1
deriving DecidableEq

/-- Python's `\w` on lowercased ASCII text: letters, digits, underscore. -/
def isWordCh (c : Char) : Bool :=
  ('a' ≤ c && c ≤ 'z') || ('A' ≤ c && c ≤ 'Z') || ('0' ≤ c && c ≤ '9') || c == '_'

/-- Fuel-indexed backtracking matcher: does the pattern match a prefix of
the character list?  Every recursive call strictly decreases
`pattern.length + chars.length`, so fuel `pattern.length + chars.length + 1`
is always sufficient. -/
def matchPatF : Nat → List RTok → List Char → Bool
  | 0, _, _ => false
  | _ + 1, [], _ => true
  | _ + 1, RTok.lit _ :: _, [] => false
  | f + 1, RTok.lit c :: ps, d :: ds => c == d && matchPatF f ps ds
  | f + 1, RTok.ws0 :: ps, [] => matchPatF f ps []
  | f + 1, RTok.ws0 :: ps, d :: ds =>
    matchPatF f ps (d :: ds) || (isPySpace d && matchPatF f (RTok.ws0 :: ps) ds)
  | _ + 1, RTok.ws1 :: _, [] => false
  | f + 1, RTok.ws1 :: ps, d :: ds => isPySpace d && matchPatF f (RTok.ws0 :: ps) ds
  | f + 1, RTok.word0 :: ps, [] => matchPatF f ps []
  | f + 1, RTok.word0 :: ps, d :: ds =>
    matchPatF f ps (d :: ds) || (isWordCh d && matchPatF f (RTok.word0 :: ps) ds)
  | _ + 1, RTok.word1 :: _, [] => false
  | f + 1, RTok.word1 :: ps, d :: ds => isWordCh d && matchPatF f (RTok.word0 :: ps) ds

/-- Does the pattern match a prefix of the character list? -/
def matchPat (ps : List RTok) (cs : List Char) : Bool :=
  matchPatF (ps.length + cs.length + 1) ps cs

/-- `re.search`: does the pattern match starting at some position? -/
def reSearch (pat : List RTok) : List Char → Bool
  | [] => matchPat pat []
  | c :: cs => matchPat pat (c :: cs) || reSearch pat cs

/-- Turn the literal part of a pattern into tokens. -/
def litToks (s : String) : List RTok := s.data.map RTok.lit

/-- The eleven regex patterns of `SupportEmailAgent.is_email_format`. -/
def email_patterns : List (List RTok) :=
  [ litToks "subject" ++ [RTok.ws0] ++ litToks ":"
  , litToks "dear" ++ [RTok.ws1, RTok.word1]
  , litToks "hello" ++ [RTok.ws1, RTok.word1]
  , litToks "hi" ++ [RTok.ws1, RTok.word1]
  , litToks "to" ++ [RTok.ws0] ++ litToks ":"
  , litToks "from" ++ [RTok.ws0] ++ litToks ":"
  , litToks "@" ++ [RTok.word1] ++ litToks "." ++ [RTok.word1]
  , litToks "best" ++ [RTok.ws1] ++ litToks "regards"
  , litToks "sincerely"
  , litToks "thank" ++ [RTok.ws1] ++ litToks "you" ++ [RTok.ws1] ++ litToks "for"
      ++ [RTok.ws1] ++ litToks "contacting"
  , litToks "we" ++ [RTok.ws1] ++ litToks "received" ++ [RTok.ws1] ++ litToks "your"
      ++ [RTok.ws1] ++ litToks "email" ]

/-- `SupportEmailAgent.is_email_format`: any pattern matches the lowercased
message. -/
def is_email_format (message : String) : Bool :=
  email_patterns.any (fun pat => reSearch pat (pyLowerList message.data))

/-! ## The Magentic-orchestration gate
(`OrchestratorAgent._should_use_magentic_orchestration`) -/

/-- The substring indicators of an email request used by the orchestrator
(both in the Magentic gate and in `_fallback_routing`). -/
def email_indicators : List String :=
  ["email", "formal", "professional", "subject:", "dear ", "best regards", "@"]

/-- The complexity indicators of `_should_use_magentic_orchestration`. -/
def complex_indicators : List String :=
  [ "compare", "analyze", "research", "investigate", "study", "examine"
  , "evaluate", "assess", "report", "comprehensive", "detailed"
  , "multiple", "various", "different", "both", "all", "several" ]

/-- `any(indicator in user_input_lower for indicator in email_indicators)`. -/
def is_email_request (user_input : String) : Bool :=
  email_indicators.any (fun ind => pyIn ind (pyLower user_input))

/-- `OrchestratorAgent._should_use_magentic_orchestration`: email requests
are always refused; otherwise a request is complex when some complexity
indicator occurs and the whitespace word count exceeds 10. -/
def should_use_magentic_orchestration (user_input : String) : Bool :=
  if is_email_request user_input then false
  else
    (complex_indicators.any (fun ind => pyIn ind (pyLower user_input)))
      && decide (pyWordCount user_input > 10)

/-! ## Routing decisions -/

/-- `RoutingDecision` as constructed by the rule-based paths (all fields
carry the statically expected Python types). -/
structure RoutingDecision where
  agents_to_call : List String
  reasoning : String
  is_multi_agent : Bool
  primary_agent : Option String
deriving DecidableEq

/-- The keyword lists of `OrchestratorAgent._fallback_routing`. -/
def weather_words : List String :=
  ["weather", "temperature", "forecast", "rain", "snow", "sunny", "cloudy"]

/-- Ethics keywords of `_fallback_routing`. -/
def ethics_words : List String :=
  ["ai ethics", "bias", "fairness", "human dependence", "algorithmic"]

/-- Support keywords of `_fallback_routing`. -/
def support_words : List String :=
  ["support", "help", "problem", "issue", "error", "question"]

/-- Does any of the keywords occur in the lowercased input? -/
def anyKeyword (words : List String) (user_input : String) : Bool :=
  words.any (fun w => pyIn w (pyLower user_input))

/-- The number of keywords of a topic list occurring in the input (the
spec's per-topic match score). -/
def topicScore (words : List String) (user_input : String) : Nat :=
  (words.filter (fun w => pyIn w (pyLower user_input))).length

/-- `OrchestratorAgent._fallback_routing`: the rule-based keyword ladder. -/
def fallback_routing (user_input : String) : RoutingDecision :=
  if anyKeyword weather_words user_input then
    if is_email_request user_input then
      ⟨["weather_agent", "support_email_agent"],
        "Weather question requiring email format", true, some "weather_agent"⟩
    else
      ⟨["weather_agent"], "Weather-related keywords detected", false,
        some "weather_agent"⟩
  else if anyKeyword ethics_words user_input then
    if is_email_request user_input then
      ⟨["ai_ethics_agent", "support_email_agent"],
        "AI ethics question requiring email format", true, some "ai_ethics_agent"⟩
    else
      ⟨["ai_ethics_agent"], "AI ethics keywords detected", false,
        some "ai_ethics_agent"⟩
  else if anyKeyword support_words user_input then
    if is_email_request user_input then
      ⟨["qna_agent", "support_email_agent"],
        "Support question requiring email format", true, some "qna_agent"⟩
    else
      ⟨["qna_agent"], "Support-related keywords detected", false, some "qna_agent"⟩
  else if is_email_request user_input then
    ⟨["orchestrator_direct", "support_email_agent"],
      "Email format request for general inquiry", true, some "orchestrator_direct"⟩
  else
    ⟨["orchestrator_direct"], "No specific agent keywords found, handling directly",
      false, some "orchestrator_direct"⟩

/-! ## JSON values and `json.loads`

`_parse_routing_decision` extracts the slice between the first `{` and the
last `}` of the routing agent's reply and feeds it to `json.loads`.  We
model JSON values dynamically (a Python runtime value out of `json.loads`)
and implement the decoder directly.  Numbers keep their source lexeme; no
claim depends on numeric values. -/

/-- A decoded JSON value (= the Python value `json.loads` produces). -/
inductive JVal where
  | jnull
  | jbool (b : Bool)
  | jnum (lexeme : String)
  | jstr (s : String)
  | jarr (xs : List JVal)
  | jobj (fields : List (String × JVal))

/-- JSON inter-token whitespace. -/
def isJsonWs (c : Char) : Bool := c == ' ' || c == '\t' || c == '\n' || c == '\x0d'

/-- Skip JSON whitespace. -/
def skipWs (cs : List Char) : List Char := cs.dropWhile isJsonWs

/-- ASCII decimal digit. -/
def isDigitCh (c : Char) : Bool := '0' ≤ c && c ≤ '9'

/-- Hexadecimal digit value. -/
def hexVal (c : Char) : Option Nat :=
  if isDigitCh c then some (c.toNat - 48)
  else if 'a' ≤ c && c ≤ 'f' then some (c.toNat - 87)
  else if 'A' ≤ c && c ≤ 'F' then some (c.toNat - 55)
  else none

/-- Longest digit run at the front, with the remainder. -/
def spanDigits (cs : List Char) : List Char × List Char :=
  (cs.takeWhile isDigitCh, cs.dropWhile isDigitCh)

/-- Consume a literal keyword (`true`, `false`, `null`, the infinities). -/
def stripKw (kw : String) (cs : List Char) : Option (List Char) :=
  if isPrefixCh kw.data cs then some (cs.drop kw.data.length) else none

/-- Parse the body of a JSON string literal (the opening quote already
consumed); returns the decoded text and the input after the closing quote.
Control characters below `0x20` are rejected, as `json.loads` does in its
default strict mode. -/
def parseStringBody : List Char → Option (List Char × List Char)
  | [] => none
  | '"' :: rest => some ([], rest)
  | '\\' :: e :: rest =>
    let plain : Char → Option Char := fun c =>
      List.lookup c
        [ ('"', '"'), ('\\', '\\'), ('/', '/'), ('b', '\x08'), ('f', '\x0c')
        , ('n', '\n'), ('r', '\x0d'), ('t', '\t') ]
    (match plain e with
     | some c =>
       match parseStringBody rest with
       | some (s, rest') => some (c :: s, rest')
       | none => none
     | none =>
       if e == 'u' then
         match rest with
         | h1 :: h2 :: h3 :: h4 :: rest' =>
           match hexVal h1, hexVal h2, hexVal h3, hexVal h4 with
           | some a, some b, some c, some d =>
             (match parseStringBody rest' with
              | some (s, rest'') =>
                some (Char.ofNat (((a * 16 + b) * 16 + c) * 16 + d) :: s, rest'')
              | none => none)
           | _, _, _, _ => none
         | _ => none
       else none)
  | c :: rest =>
    if c.toNat < 32 then none
    else
      match parseStringBody rest with
      | some (s, rest') => some (c :: s, rest')
      | none => none

/-- Parse a JSON number lexeme: `-? (0 | [1-9][0-9]*) (. [0-9]+)?
([eE] [+-]? [0-9]+)?`. -/
def parseNumber (cs : List Char) : Option (List Char × List Char) :=
  let intPart : List Char → Option (List Char × List Char) := fun cs =>
    match cs with
    | '0' :: rest => some (['0'], rest)
    | c :: rest =>
      if isDigitCh c && c != '0' then
        let (ds, rest') := spanDigits rest
        some (c :: ds, rest')
      else none
    | [] => none
  let fracPart : List Char → (List Char × List Char) := fun cs =>
    match cs with
    | '.' :: rest =>
      let (ds, rest') := spanDigits rest
      if ds = [] then ([], '.' :: rest) else ('.' :: ds, rest')
    | other => ([], other)
  let expPart : List Char → Option (List Char × List Char) := fun cs =>
    match cs with
    | e :: rest =>
      if e == 'e' || e == 'E' then
        let (sgn, rest') :=
          match rest with
          | s :: r => if s == '+' || s == '-' then ([s], r) else ([], rest)
          | [] => ([], rest)
        let (ds, rest'') := spanDigits rest'
        if ds = [] then none else some (e :: sgn ++ ds, rest'')
      else some ([], cs)
    | [] => some ([], [])
  let (neg, cs₁) :=
    match cs with
    | '-' :: rest => ((['-'] : List Char), rest)
    | other => ([], other)
  match intPart cs₁ with
  | none => none
  | some (ip, cs₂) =>
    let (fp, cs₃) := fracPart cs₂
    match expPart cs₃ with
    | none => none
    | some (ep, cs₄) => some (neg ++ ip ++ fp ++ ep, cs₄)

mutual

/-- Fuel-indexed JSON value decoder (fuel `input.length + 1` suffices, as
every recursive call follows the consumption of at least one character). -/
def parseVal : Nat → List Char → Option (JVal × List Char)
  | 0, _ => none
  | fuel + 1, cs =>
    match skipWs cs with
    | '{' :: rest => parseObjFields fuel rest true []
    | '[' :: rest => parseArrItems fuel rest true []
    | '"' :: rest =>
      match parseStringBody rest with
      | some (s, rest') => some (JVal.jstr ⟨s⟩, rest')
      | none => none
    | other =>
      if let some rest := stripKw "true" other then some (JVal.jbool true, rest)
      else if let some rest := stripKw "false" other then some (JVal.jbool false, rest)
      else if let some rest := stripKw "null" other then some (JVal.jnull, rest)
      else if let some rest := stripKw "NaN" other then some (JVal.jnum "NaN", rest)
      else if let some rest := stripKw "Infinity" other then
        some (JVal.jnum "Infinity", rest)
      else if let some rest := stripKw "-Infinity" other then
        some (JVal.jnum "-Infinity", rest)
      else
        match parseNumber other with
        | some (lex, rest) => some (JVal.jnum ⟨lex⟩, rest)
        | none => none

/-- Members of an object, after the opening `{` (or after a comma when
`first = false` is reached with accumulated fields). -/
def parseObjFields : Nat → List Char → Bool → List (String × JVal) →
    Option (JVal × List Char)
  | 0, _, _, _ => none
  | fuel + 1, cs, first, acc =>
    match skipWs cs with
    | '}' :: rest => if first then some (JVal.jobj acc.reverse, rest) else none
    | '"' :: rest =>
      match parseStringBody rest with
      | none => none
      | some (k, rest') =>
        match skipWs rest' with
        | ':' :: rest'' =>
          match parseVal fuel rest'' with
          | none => none
          | some (v, rest''') =>
            match skipWs rest''' with
            | ',' :: more => parseObjFields fuel more false ((⟨k⟩, v) :: acc)
            | '}' :: more => some (JVal.jobj (((⟨k⟩, v) :: acc)).reverse, more)
            | _ => none
        | _ => none
    | _ => none

/-- Items of an array, after the opening `[`. -/
def parseArrItems : Nat → List Char → Bool → List JVal → Option (JVal × List Char)
  | 0, _, _, _ => none
  | fuel + 1, cs, first, acc =>
    match skipWs cs with
    | ']' :: rest =>
      if first then some (JVal.jarr acc.reverse, rest)
      else none
    | other =>
      match parseVal fuel other with
      | none => none
      | some (v, rest) =>
        match skipWs rest with
        | ',' :: more => parseArrItems fuel more false (v :: acc)
        | ']' :: more => some (JVal.jarr ((v :: acc)).reverse, more)
        | _ => none

end

/-- `json.loads`: decode a whole string (trailing whitespace allowed,
anything else rejected). -/
def jsonLoads (s : String) : Option JVal :=
  match parseVal (s.data.length + 1) s.data with
  | some (v, rest) => if skipWs rest = [] then some v else none
  | none => none

/-! ## `_parse_routing_decision` and the dynamic routing decision -/

/-- `str.strip()`: drop Python whitespace from both ends. -/
def pyStrip (s : String) : String :=
  ⟨((s.data.dropWhile isPySpace).reverse.dropWhile isPySpace).reverse⟩

/-- `str.find(c)`: index of the first occurrence, or `none` (Python `-1`). -/
def pyFindChar (cs : List Char) (c : Char) : Option Nat := cs.findIdx? (· == c)

/-- `str.rfind(c)`: index of the last occurrence, or `none` (Python `-1`). -/
def pyRFindChar (cs : List Char) (c : Char) : Option Nat :=
  match (cs.reverse).findIdx? (· == c) with
  | some i => some (cs.length - 1 - i)
  | none => none

/-- `s[a:b]` for non-negative indices (empty when `b ≤ a`). -/
def pySlice (cs : List Char) (a b : Nat) : List Char := (cs.drop a).take (b - a)

/-- Lookup in the decoded field list with Python `dict` semantics: a
duplicated key keeps its last value. -/
def lookupLast : List (String × JVal) → String → Option JVal
  | [], _ => none
  | (k', v) :: rest, k =>
    match lookupLast rest k with
    | some w => some w
    | none => if k' = k then some v else none

/-- `routing_data.get(key, default)`. -/
def getField (fields : List (String × JVal)) (k : String) (dflt : JVal) : JVal :=
  match lookupLast fields k with
  | some v => v
  | none => dflt

/-- The decode step of `_parse_routing_decision`: strip the reply, locate
the first `{` and the last `}`, and run `json.loads` on the enclosed slice.
`none` models every path into the rule-based fallback (missing braces or a
`JSONDecodeError`).  A successful parse of the slice always yields an
object, because the slice starts with `{` itself. -/
def parsedObj (routing_result : String) : Option (List (String × JVal)) :=
  let r := (pyStrip routing_result).data
  match pyFindChar r '{', pyRFindChar r '}' with
  | some i, some j =>
    match jsonLoads ⟨pySlice r i (j + 1)⟩ with
    | some (JVal.jobj fields) => some fields
    | _ => none
  | _, _ => none

/-- A routing decision as the Python runtime holds it: the fields carry
whatever values the decoded JSON supplied (`_parse_routing_decision` passes
them through unchecked). -/
structure RoutingDecisionD where
  agents_to_call : JVal
  reasoning : JVal
  is_multi_agent : JVal
  primary_agent : JVal

/-- Injection of a statically well-typed decision. -/
def toDyn (d : RoutingDecision) : RoutingDecisionD :=
  ⟨ JVal.jarr (d.agents_to_call.map JVal.jstr)
  , JVal.jstr d.reasoning
  , JVal.jbool d.is_multi_agent
  , match d.primary_agent with
    | some p => JVal.jstr p
    | none => JVal.jnull ⟩

/-- `OrchestratorAgent._parse_routing_decision`: decode the routing agent's
reply; on success read the four fields with their defaults, otherwise fall
back to the rule-based ladder on the original input.  The Python `except`
clause is total here: the function never raises. -/
def parse_routing_decision (routing_result user_input : String) : RoutingDecisionD :=
  match parsedObj routing_result with
  | some fields =>
    ⟨ getField fields "agents_to_call" (JVal.jarr [JVal.jstr "orchestrator_direct"])
    , getField fields "reasoning" (JVal.jstr "Default routing")
    , getField fields "is_multi_agent" (JVal.jbool false)
    , getField fields "primary_agent" JVal.jnull ⟩
  | none => toDyn (fallback_routing user_input)

/-- The decision `_use_magentic_orchestration` returns. -/
def magentic_decision : RoutingDecisionD :=
  toDyn ⟨["magentic_orchestration"],
    "Complex task suitable for Magentic multi-agent orchestration", true,
    some "magentic_orchestration"⟩

/-- `OrchestratorAgent._route_with_magentic`, with the raw reply of the
routing agent's (otherwise external) invocation passed as `routing_output`:
complex non-email requests take the Magentic branch, everything else is the
direct-routing branch through `_parse_routing_decision`. -/
def route_with_magentic (user_input routing_output : String) : RoutingDecisionD :=
  if should_use_magentic_orchestration user_input then magentic_decision
  else parse_routing_decision routing_output user_input

/-! ## Agent invocation environment and event traces

Every `await` of an external capability (a sub-agent, the direct-handling
completion, the email formatter, the Magentic planner, the synthesis call)
is modelled by an outcome drawn from an environment record: `Except.ok r`
is a returned string, `Except.error e` a raised exception with `str(e) = e`.
Each invocation appends an `Event` to an explicit trace, in issue order;
`asyncio.gather` awaits the whole batch before the function resumes, so the
batch's events all precede any later event. -/

/-- One external invocation, by agent name. -/
inductive Event where
  | invoke (agent : String)
deriving DecidableEq

/-- Outcomes of the external calls for one request.  `email` and `synth`
receive the content/prompt they are called with; the other calls always
receive the fixed user input of the request, so their outcomes are plain.
The customer-info dictionary passed alongside the email content is a pure
function of the user input and is absorbed into `email`. -/
structure AgentEnv where
  routing : Except String String
  weather : Except String String
  ethics : Except String String
  qna : Except String String
  direct : Except String String
  email : String → Except String String
  magentic : Except String String
  synth : String → Except String String

/-- `AgentResponse` (the wall-clock `execution_time` field is not modelled). -/
structure AgentResponse where
  agent_name : String
  response : String
  success : Bool
  error : Option String
deriving DecidableEq

/-- `OrchestratorAgent._call_agent_with_metrics`: a returned value becomes a
successful response, a raised exception a failed one with empty text. -/
def call_agent_with_metrics (agent_name : String) (outcome : Except String String) :
    AgentResponse :=
  match outcome with
  | Except.ok r => ⟨agent_name, r, true, none⟩
  | Except.error e => ⟨agent_name, "", false, some e⟩

/-- The four content-producing agent names the parallel workflows dispatch on. -/
def content_agent_names : List String :=
  ["weather_agent", "ai_ethics_agent", "qna_agent", "orchestrator_direct"]

/-- The environment outcome of one content agent call. -/
def contentResult (env : AgentEnv) (name : String) : Except String String :=
  if name = "weather_agent" then env.weather
  else if name = "ai_ethics_agent" then env.ethics
  else if name = "qna_agent" then env.qna
  else env.direct

/-- Python equality of a runtime value with a string literal. -/
def isStrVal (s : String) : JVal → Bool
  | JVal.jstr t => t = s
  | _ => false

/-- The task batch built by the `for agent_name in ...` dispatch loops: only
the four known content names produce a task, anything else is skipped. -/
def contentBatch (agents : List JVal) : List String :=
  agents.filterMap fun a =>
    match a with
    | JVal.jstr s => if s ∈ content_agent_names then some s else none
    | _ => none

/-- `str(None)` / the error text, as interpolated into failure summaries. -/
def errStr : Option String → String
  | some e => e
  | none => "None"

/-- The gathered metrics-wrapped responses of a batch. -/
def batchResponses (env : AgentEnv) (agents : List JVal) : List AgentResponse :=
  (contentBatch agents).map fun a => call_agent_with_metrics a (contentResult env a)

/-- The successful responses of a batch, in batch order. -/
def successResponses (env : AgentEnv) (agents : List JVal) : List AgentResponse :=
  (batchResponses env agents).filter (·.success)

/-- The failure summaries of a batch: `f"{agent_name}: {error}"` for each
unsuccessful response, in batch order. -/
def failedSummaries (env : AgentEnv) (agents : List JVal) : List String :=
  ((batchResponses env agents).filter fun r => !r.success).map fun r =>
    r.agent_name ++ ": " ++ errStr r.error

/-- `sep.join(parts)`. -/
def joinSep (sep : String) : List String → String
  | [] => ""
  | [x] => x
  | x :: y :: xs => x ++ sep ++ joinSep sep (y :: xs)

/-- ASCII letter. -/
def isAlphaCh (c : Char) : Bool := ('a' ≤ c && c ≤ 'z') || ('A' ≤ c && c ≤ 'Z')

/-- ASCII upper-casing. -/
def toUpperCh (c : Char) : Char :=
  if 'a' ≤ c && c ≤ 'z' then Char.ofNat (c.toNat - 32) else c

/-- `str.title()` on ASCII text: a letter is upper-cased after a non-letter
and lower-cased after a letter. -/
def pyTitleGo : List Char → Bool → List Char
  | [], _ => []
  | c :: cs, prevAlpha =>
    (if isAlphaCh c then (if prevAlpha then pyLowerChar c else toUpperCh c) else c)
      :: pyTitleGo cs (isAlphaCh c)

/-- `agent_name.replace("_", " ").title()`. -/
def agentTitle (name : String) : String :=
  ⟨pyTitleGo (name.data.map fun c => if c = '_' then ' ' else c) false⟩

/-- The prompt `_synthesize_agent_responses` sends to the synthesis call. -/
def synthesis_prompt (user_input : String) (succ : List AgentResponse)
    (failed : List String) : String :=
  let base := joinSep "\n\n" (succ.map fun r => "**" ++ r.agent_name ++ "**: " ++ r.response)
  let art := if failed = [] then base
    else base ++ "\n\n**Failed agents**: " ++ joinSep "; " failed
  "Synthesize these agent responses into a coherent, helpful answer:\n\n" ++
    "Original request: \"" ++ user_input ++ "\"\n\nAgent responses:\n" ++ art ++
    "\n\nCreate a single, well-structured response that:\n" ++
    "1. Addresses all aspects of the user\x27s request\n" ++
    "2. Flows naturally without feeling like separate responses\n" ++
    "3. Maintains the expertise and tone from each agent\n" ++
    "4. Provides clear organization if covering multiple topics\n\n" ++
    "Return only the final synthesized response."

/-- `OrchestratorAgent._simple_synthesis`: one success is returned verbatim,
several are concatenated under title-cased headings with `=` separators. -/
def simple_synthesis (user_input : String) (succ : List AgentResponse) : String :=
  match succ with
  | [r] => r.response
  | _ =>
    "Based on your request about \x27" ++ user_input ++ "\x27, here\x27s what I found:\n"
      ++ joinSep ("\n" ++ ⟨List.replicate 50 '='⟩)
        (succ.map fun r => "\n**" ++ agentTitle r.agent_name ++ ":**\n" ++ r.response)

/-- `OrchestratorAgent._synthesize_agent_responses`: try the synthesis call;
on failure fall back to `_simple_synthesis`.  Never raises. -/
def synthesize_agent_responses (env : AgentEnv) (user_input : String)
    (succ : List AgentResponse) (failed : List String) : String :=
  match env.synth (synthesis_prompt user_input succ failed) with
  | Except.ok s => s
  | Except.error _ => simple_synthesis user_input succ

/-- `OrchestratorAgent._execute_standard_multi_agent_workflow`: gather the
batch, split successes from failures, fall back to direct handling when all
failed, otherwise synthesize.  The source's `isinstance(response, Exception)`
branch after `asyncio.gather(..., return_exceptions=True)` is unreachable:
every task is wrapped by `_call_agent_with_metrics`, which catches all
exceptions itself. -/
def execute_standard_multi_agent_workflow (env : AgentEnv) (user_input : String)
    (agents : List JVal) : Except String String × List Event :=
  let tr := (contentBatch agents).map Event.invoke
  let succ := successResponses env agents
  if succ = [] then (env.direct, tr ++ [Event.invoke "orchestrator_direct"])
  else
    (Except.ok (synthesize_agent_responses env user_input succ (failedSummaries env agents)),
      tr ++ [Event.invoke "synthesis"])

/-- The combined content of step 2 of the content-then-email workflow. -/
def combined_content (user_input : String) (succ : List AgentResponse) : String :=
  match succ with
  | [r] => "Question: " ++ user_input ++ "\n\nAnswer: " ++ r.response
  | _ =>
    joinSep "\n" (("Question: " ++ user_input ++ "\n\nComprehensive Answer:")
      :: succ.map fun r => "\n**From " ++ agentTitle r.agent_name ++ ":**\n" ++ r.response)

/-- The `Question:`/`Answer:` wrapping used by the fallback email paths. -/
def qa_wrap (user_input content : String) : String :=
  "Question: " ++ user_input ++ "\n\nAnswer: " ++ content

/-- `OrchestratorAgent._execute_content_then_email_workflow`: gather the
content batch; if nothing succeeded, produce direct content and format it
(failures of either call propagate); otherwise format the combined content,
returning it unformatted when the email call fails. -/
def execute_content_then_email_workflow (env : AgentEnv) (user_input : String)
    (content_agents : List JVal) : Except String String × List Event :=
  let tr := (contentBatch content_agents).map Event.invoke
  let succ := successResponses env content_agents
  if succ = [] then
    match env.direct with
    | Except.error e => (Except.error e, tr ++ [Event.invoke "orchestrator_direct"])
    | Except.ok content =>
      (env.email (qa_wrap user_input content),
        tr ++ [Event.invoke "orchestrator_direct", Event.invoke "support_email_agent"])
  else
    match env.email (combined_content user_input succ) with
    | Except.ok r => (Except.ok r, tr ++ [Event.invoke "support_email_agent"])
    | Except.error _ =>
      (Except.ok (combined_content user_input succ), tr ++ [Event.invoke "support_email_agent"])

/-- `OrchestratorAgent._execute_single_agent_workflow`: dispatch on the
agent name; an email-formatter-alone decision first manufactures direct
content; an unknown name (or a non-string value) is handled directly. -/
def execute_single_agent_workflow (env : AgentEnv) (user_input : String)
    (agent_name : JVal) : Except String String × List Event :=
  match agent_name with
  | JVal.jstr s =>
    if s = "weather_agent" then (env.weather, [Event.invoke "weather_agent"])
    else if s = "ai_ethics_agent" then (env.ethics, [Event.invoke "ai_ethics_agent"])
    else if s = "qna_agent" then (env.qna, [Event.invoke "qna_agent"])
    else if s = "support_email_agent" then
      match env.direct with
      | Except.error e => (Except.error e, [Event.invoke "orchestrator_direct"])
      | Except.ok content =>
        (env.email (qa_wrap user_input content),
          [Event.invoke "orchestrator_direct", Event.invoke "support_email_agent"])
    else if s = "orchestrator_direct" then (env.direct, [Event.invoke "orchestrator_direct"])
    else if s = "magentic_orchestration" then
      match env.magentic with
      | Except.ok r => (Except.ok r, [Event.invoke "magentic_orchestration"])
      | Except.error _ =>
        (env.direct, [Event.invoke "magentic_orchestration", Event.invoke "orchestrator_direct"])
    else (env.direct, [Event.invoke "orchestrator_direct"])
  | _ => (env.direct, [Event.invoke "orchestrator_direct"])

/-! ## Python dynamic-value semantics used by `handle_request`

`handle_request` branches on `routing_decision.is_multi_agent` (truthiness),
`len(routing_decision.agents_to_call)` and `agents_to_call[0]`, where those
fields hold whatever the decoded JSON supplied; the corresponding Python
runtime behaviour (including `TypeError`/`IndexError`/`KeyError` raises) is
modelled explicitly. -/

/-- First-occurrence-ordered distinct keys of a decoded object (Python
`dict` iteration order under duplicate-key overwrite). -/
def keysDedup : List String → List String
  | [] => []
  | k :: ks => k :: (keysDedup ks).filter (· ≠ k)

/-- Python truthiness of a decoded JSON value. -/
def pyTruthy : JVal → Bool
  | JVal.jnull => false
  | JVal.jbool b => b
  | JVal.jnum lex =>
    ((lex.data.takeWhile fun c => c ≠ 'e' ∧ c ≠ 'E').any fun c => '1' ≤ c && c ≤ '9')
      || lex = "NaN" || lex = "Infinity" || lex = "-Infinity"
  | JVal.jstr s => s ≠ ""
  | JVal.jarr xs => !xs.isEmpty
  | JVal.jobj fs => !fs.isEmpty

/-- Python `len()` of a decoded JSON value (raises `TypeError` on values
without a length). -/
def pyLen : JVal → Except String Nat
  | JVal.jarr xs => Except.ok xs.length
  | JVal.jstr s => Except.ok s.data.length
  | JVal.jobj fs => Except.ok (keysDedup (fs.map Prod.fst)).length
  | _ => Except.error "TypeError: object has no len()"

/-- Python `v[0]` of a decoded JSON value. -/
def pyIndex0 : JVal → Except String JVal
  | JVal.jarr [] => Except.error "IndexError: list index out of range"
  | JVal.jarr (x :: _) => Except.ok x
  | JVal.jstr s =>
    match s.data with
    | [] => Except.error "IndexError: string index out of range"
    | c :: _ => Except.ok (JVal.jstr ⟨[c]⟩)
  | JVal.jobj _ => Except.error "KeyError: 0"
  | _ => Except.error "TypeError: object is not subscriptable"

/-- Python `name in v` for the container shapes that can reach the
multi-agent dispatch (a list, a string, or a dict). -/
def pyMemB (x : String) : JVal → Bool
  | JVal.jarr xs => xs.any (isStrVal x)
  | JVal.jstr s => pyIn x s
  | JVal.jobj fs => fs.any fun kv => kv.1 = x
  | _ => false

/-- Python iteration over the same container shapes. -/
def pyElems : JVal → List JVal
  | JVal.jarr xs => xs
  | JVal.jstr s => s.data.map fun c => JVal.jstr ⟨[c]⟩
  | JVal.jobj fs => (keysDedup (fs.map Prod.fst)).map JVal.jstr
  | _ => []

/-- `OrchestratorAgent._execute_multi_agent_workflow`: the unexpected
Magentic-plus-email combination degenerates to direct content plus email
formatting; an email-involving decision runs the content-then-email shape on
the non-email agents; anything else runs the standard parallel shape. -/
def execute_multi_agent_workflow (env : AgentEnv) (user_input : String)
    (agents_to_call : JVal) : Except String String × List Event :=
  let needs_email := pyMemB "support_email_agent" agents_to_call
  let has_magentic := pyMemB "magentic_orchestration" agents_to_call
  if needs_email && has_magentic then
    match env.direct with
    | Except.error e => (Except.error e, [Event.invoke "orchestrator_direct"])
    | Except.ok content =>
      (env.email (qa_wrap user_input content),
        [Event.invoke "orchestrator_direct", Event.invoke "support_email_agent"])
  else if needs_email then
    execute_content_then_email_workflow env user_input
      ((pyElems agents_to_call).filter fun a => !isStrVal "support_email_agent" a)
  else
    execute_standard_multi_agent_workflow env user_input (pyElems agents_to_call)

/-- The routing step of `handle_request`: `_route_with_magentic`, with a
failure of the routing agent's invocation recovered by `_fallback_routing`. -/
def routing_step (env : AgentEnv) (user_input : String) : RoutingDecisionD :=
  if should_use_magentic_orchestration user_input then magentic_decision
  else
    match env.routing with
    | Except.ok out => parse_routing_decision out user_input
    | Except.error _ => toDyn (fallback_routing user_input)

/-- `OrchestratorAgent.handle_request` (also the public `invoke`): route,
then dispatch to the multi-agent workflow when the decision is marked
multi-agent and names more than one agent, otherwise to the single-agent
workflow on `agents_to_call[0]`.  The outer `except` clause logs and
re-raises, so a raise inside a workflow propagates unchanged. -/
def handle_request (env : AgentEnv) (user_input : String) :
    Except String String × List Event :=
  let d := routing_step env user_input
  let single : Unit → Except String String × List Event := fun _ =>
    match pyIndex0 d.agents_to_call with
    | Except.error e => (Except.error e, [])
    | Except.ok v => execute_single_agent_workflow env user_input v
  if pyTruthy d.is_multi_agent then
    match pyLen d.agents_to_call with
    | Except.error e => (Except.error e, [])
    | Except.ok n =>
      if 1 < n then execute_multi_agent_workflow env user_input d.agents_to_call
      else single ()
  else single ()

/-- The number of email-formatter invocations in a trace. -/
def emailEventCount (tr : List Event) : Nat :=
  tr.countP fun e => decide (e = Event.invoke "support_email_agent")

/-! ## Concrete environments used to instantiate the theorems -/

/-- Every external call healthy. -/
def envAllOk : AgentEnv :=
  ⟨Except.ok "", Except.ok "W", Except.ok "E", Except.ok "Q", Except.ok "direct reply",
    fun c => Except.ok ("EMAIL:" ++ c), Except.ok "M", fun _ => Except.ok "S"⟩

/-- The weather agent raises, everything else healthy. -/
def envWeatherDown : AgentEnv :=
  ⟨Except.ok "", Except.error "boom", Except.ok "E", Except.ok "Q", Except.ok "direct reply",
    fun c => Except.ok ("EMAIL:" ++ c), Except.ok "M", fun _ => Except.ok "S"⟩

/-- The weather agent raises and the synthesis call raises. -/
def envSynthDown : AgentEnv :=
  ⟨Except.ok "", Except.error "boom", Except.ok "E", Except.ok "Q", Except.ok "direct reply",
    fun c => Except.ok ("EMAIL:" ++ c), Except.ok "M", fun _ => Except.error "synth down"⟩

/-- The weather agent raises and the synthesis call returns the empty string. -/
def envSynthEmpty : AgentEnv :=
  ⟨Except.ok "", Except.error "boom", Except.ok "E", Except.ok "Q", Except.ok "direct reply",
    fun c => Except.ok ("EMAIL:" ++ c), Except.ok "M", fun _ => Except.ok ""⟩

/-- The weather agent raises and the email formatter raises. -/
def envEmailDown : AgentEnv :=
  ⟨Except.ok "", Except.error "boom", Except.ok "E", Except.ok "Q", Except.ok "direct reply",
    fun _ => Except.error "email down", Except.ok "M", fun _ => Except.ok "S"⟩

/-- Only the email formatter raises. -/
def envEmailOnlyDown : AgentEnv :=
  ⟨Except.ok "", Except.ok "W", Except.ok "E", Except.ok "Q", Except.ok "direct reply",
    fun _ => Except.error "email down", Except.ok "M", fun _ => Except.ok "S"⟩

/-- The routing agent replies with a single-weather JSON decision while the
weather agent itself raises. -/
def envRoutedWeatherDown : AgentEnv :=
  ⟨Except.ok "\x7b\"agents_to_call\": [\"weather_agent\"], \"reasoning\": \"Weather query\", \"is_multi_agent\": false, \"primary_agent\": \"weather_agent\"\x7d",
    Except.error "boom", Except.ok "E", Except.ok "Q", Except.ok "direct reply",
    fun c => Except.ok ("EMAIL:" ++ c), Except.ok "M", fun _ => Except.ok "S"⟩

/-! ## Helper lemmas -/

/-- A prefix test succeeds exactly when the haystack extends the needle. -/
lemma isPrefixCh_iff (n h : List Char) :
    isPrefixCh n h = true ↔ ∃ t, h = n ++ t := by
  induction n generalizing h with
  | nil => simp [isPrefixCh]
  | cons c ns ih =>
    cases h with
    | nil => simp [isPrefixCh]
    | cons d hs =>
      simp only [isPrefixCh, Bool.and_eq_true, beq_iff_eq, ih, List.cons_append,
        List.cons.injEq]
      constructor
      · rintro ⟨rfl, t, rfl⟩
        exact ⟨t, rfl, rfl⟩
      · rintro ⟨t, rfl, rfl⟩
        exact ⟨rfl, t, rfl⟩

/-- The substring test succeeds exactly when the haystack decomposes around
the needle. -/
lemma containsSub_iff (n h : List Char) :
    containsSub n h = true ↔ ∃ pre suf, h = pre ++ n ++ suf := by
  induction h with
  | nil =>
    simp only [containsSub, isPrefixCh_iff]
    constructor
    · rintro ⟨t, ht⟩
      rcases List.append_eq_nil.1 ht.symm with ⟨rfl, rfl⟩
      exact ⟨[], [], rfl⟩
    · rintro ⟨pre, suf, hps⟩
      rcases List.append_eq_nil.1 hps.symm with ⟨h1, rfl⟩
      rcases List.append_eq_nil.1 h1 with ⟨rfl, rfl⟩
      exact ⟨[], rfl⟩
  | cons c hs ih =>
    simp only [containsSub, Bool.or_eq_true, isPrefixCh_iff, ih]
    constructor
    · rintro (⟨t, ht⟩ | ⟨pre, suf, hps⟩)
      · exact ⟨[], t, by simp [ht]⟩
      · exact ⟨c :: pre, suf, by simp [hps]⟩
    · rintro ⟨pre, suf, hps⟩
      cases pre with
      | nil =>
        left
        exact ⟨suf, by simpa using hps⟩
      | cons c' pre' =>
        right
        rcases List.cons.injEq .. ▸ hps with ⟨rfl, htl⟩
        exact ⟨pre', suf, htl⟩

/-- Every string is a substring of itself. -/
lemma pyIn_refl (s : String) : pyIn s s = true := by
  unfold pyIn
  exact (containsSub_iff _ _).2 ⟨[], [], by simp⟩

/-- Substring of the right part of a concatenation. -/
lemma pyIn_append_left (sub s t : String) (h : pyIn sub t = true) :
    pyIn sub (s ++ t) = true := by
  unfold pyIn at h ⊢
  rcases (containsSub_iff _ _).1 h with ⟨pre, suf, hd⟩
  exact (containsSub_iff _ _).2 ⟨s.data ++ pre, suf, by simp [String.data_append, hd]⟩

/-- Substring of the left part of a concatenation. -/
lemma pyIn_append_right (sub s t : String) (h : pyIn sub s = true) :
    pyIn sub (s ++ t) = true := by
  unfold pyIn at h ⊢
  rcases (containsSub_iff _ _).1 h with ⟨pre, suf, hd⟩
  exact (containsSub_iff _ _).2 ⟨pre, suf ++ t.data, by simp [String.data_append, hd]⟩

/-- Substring relations compose. -/
lemma pyIn_trans (a b c : String) (h1 : pyIn a b = true) (h2 : pyIn b c = true) :
    pyIn a c = true := by
  unfold pyIn at h1 h2 ⊢
  rcases (containsSub_iff _ _).1 h1 with ⟨p, q, hb⟩
  rcases (containsSub_iff _ _).1 h2 with ⟨P, Q, hc⟩
  exact (containsSub_iff _ _).2 ⟨P ++ p, q ++ Q, by simp [hc, hb]⟩

/-- A member of the joined list is a substring of the join. -/
lemma pyIn_joinSep (sep x : String) (parts : List String) (hx : x ∈ parts) :
    pyIn x (joinSep sep parts) = true := by
  induction parts with
  | nil => cases hx
  | cons y ys ih =>
    rcases List.mem_cons.1 hx with rfl | h
    · cases ys with
      | nil => exact pyIn_refl x
      | cons z zs =>
        show pyIn x (x ++ sep ++ joinSep sep (z :: zs)) = true
        exact pyIn_append_right _ _ _ (pyIn_append_right _ _ _ (pyIn_refl x))
    · cases ys with
      | nil => cases h
      | cons z zs =>
        show pyIn x (y ++ sep ++ joinSep sep (z :: zs)) = true
        exact pyIn_append_left _ _ _ (ih h)

/-- Concatenation with a non-empty left part is non-empty. -/
lemma append_ne_empty_left (s t : String) (h : s ≠ "") : s ++ t ≠ "" := by
  intro he
  apply h
  rw [String.ext_iff] at he ⊢
  rcases List.append_eq_nil.1 (by simpa [String.data_append] using he) with ⟨h1, _⟩
  simpa using h1

/-- The rule-based ladder always returns at least one agent. -/
lemma fallback_routing_nonempty (user_input : String) :
    ∃ x xs, (fallback_routing user_input).agents_to_call = x :: xs := by
  unfold fallback_routing
  repeat' split
  all_goals exact ⟨_, _, rfl⟩

/-- The rule-based ladder never selects the Magentic planning mode. -/
lemma fallback_routing_no_planning (user_input : String) :
    pyMemB "magentic_orchestration" (toDyn (fallback_routing user_input)).agents_to_call
      = false := by
  unfold fallback_routing
  repeat' split
  all_goals rfl

/-- A decode failure always lands in the rule-based fallback. -/
lemma parse_routing_decision_of_none (s user_input : String)
    (h : parsedObj s = none) :
    parse_routing_decision s user_input = toDyn (fallback_routing user_input) := by
  unfold parse_routing_decision
  rw [h]

/-- The dispatch loops only build tasks for the four content agent names. -/
lemma contentBatch_mem (agents : List JVal) (a : String)
    (h : a ∈ contentBatch agents) : a ∈ content_agent_names := by
  unfold contentBatch at h
  rcases List.mem_filterMap.1 h with ⟨v, _, hv⟩
  cases v with
  | jstr s =>
    change (if s ∈ content_agent_names then some s else none) = some a at hv
    by_cases hs : s ∈ content_agent_names
    · rw [if_pos hs] at hv
      cases hv
      exact hs
    · rw [if_neg hs] at hv
      exact Option.noConfusion hv
  | jnull => exact Option.noConfusion hv
  | jbool b => exact Option.noConfusion hv
  | jnum l => exact Option.noConfusion hv
  | jarr xs => exact Option.noConfusion hv
  | jobj fs => exact Option.noConfusion hv

/-- A topic keyword list hits exactly when its match score is positive. -/
lemma anyKeyword_iff_score (words : List String) (user_input : String) :
    anyKeyword words user_input = true ↔ 1 ≤ topicScore words user_input := by
  unfold anyKeyword topicScore
  rw [List.any_eq_true, Nat.one_le_iff_ne_zero]
  simp only [ne_eq, List.length_eq_zero, List.filter_eq_nil_iff]
  push_neg
  simp

/-! ## Claims -/

/-- C1 (counterexample): the input below is email-format under the
`is_email_format` regex disjunction (`hello <word>` matches), yet the
Magentic gate — which tests a different, substring-based indicator list that
contains neither `hello` nor `hi` — still classifies it as a complex task,
and the routing decision selects the Magentic planning mode. -/
theorem C1_counterexample :
    is_email_format
      "hello bob please compare the coffee options and tell me which one wins" = true ∧
    should_use_magentic_orchestration
      "hello bob please compare the coffee options and tell me which one wins" = true ∧
    (route_with_magentic
      "hello bob please compare the coffee options and tell me which one wins"
      "").agents_to_call = JVal.jarr [JVal.jstr "magentic_orchestration"] :=
  ⟨by decide, by decide, rfl⟩

/-- C1 (amended): with the email classification taken as the orchestrator's
own substring indicator list (`_should_use_magentic_orchestration` /
`_fallback_routing`), the exclusion holds: an email request never enables
the Magentic gate, routing proceeds through direct routing, and whenever the
classifier reply fails to decode, the rule-based fallback decision never
names the planning mode. -/
theorem C1_amended (user_input routing_output : String)
    (h : is_email_request user_input = true) :
    should_use_magentic_orchestration user_input = false ∧
    route_with_magentic user_input routing_output
      = parse_routing_decision routing_output user_input ∧
    (parsedObj routing_output = none →
      pyMemB "magentic_orchestration"
        (route_with_magentic user_input routing_output).agents_to_call = false) := by
  have hs : should_use_magentic_orchestration user_input = false := by
    unfold should_use_magentic_orchestration
    rw [h]
    rfl
  refine ⟨hs, ?_, ?_⟩
  · unfold route_with_magentic
    rw [hs]
    rfl
  · intro hp
    unfold route_with_magentic
    rw [hs]
    show pyMemB "magentic_orchestration"
      (parse_routing_decision routing_output user_input).agents_to_call = false
    rw [parse_routing_decision_of_none routing_output user_input hp]
    exact fallback_routing_no_planning user_input

/-- C1 (witness). -/
theorem C1_witness :
    pyMemB "magentic_orchestration"
      (route_with_magentic "Dear Bob, please compare the two plans"
        "no json").agents_to_call = false :=
  (C1_amended "Dear Bob, please compare the two plans" "no json" (by decide)).2.2 rfl

/-- C3 (counterexample): a well-formed classifier reply whose
`agents_to_call` field is the empty list is passed straight through:
the decision's responder list is empty. -/
theorem C3_counterexample :
    (parse_routing_decision "\x7b\"agents_to_call\": []\x7d" "hello").agents_to_call
      = JVal.jarr [] := rfl

/-- C3 (amended): the parser's responder list is non-empty whenever the
reply fails to decode (rule-based fallback) or decodes without an
`agents_to_call` field (defaulted); but a present field is passed through
unchecked, empty or not, list or not. -/
theorem C3_amended (user_input s : String) :
    (parsedObj s = none →
      ∃ x xs, (parse_routing_decision s user_input).agents_to_call
        = JVal.jarr (x :: xs)) ∧
    (∀ fields, parsedObj s = some fields →
      lookupLast fields "agents_to_call" = none →
      (parse_routing_decision s user_input).agents_to_call
        = JVal.jarr [JVal.jstr "orchestrator_direct"]) ∧
    (∀ fields v, parsedObj s = some fields →
      lookupLast fields "agents_to_call" = some v →
      (parse_routing_decision s user_input).agents_to_call = v) := by
  refine ⟨?_, ?_, ?_⟩
  · intro hp
    rw [parse_routing_decision_of_none s user_input hp]
    rcases fallback_routing_nonempty user_input with ⟨x, xs, hx⟩
    exact ⟨JVal.jstr x, xs.map JVal.jstr, by simp [toDyn, hx]⟩
  · intro fields hp hnone
    unfold parse_routing_decision
    rw [hp]
    simp [getField, hnone]
  · intro fields v hp hv
    unfold parse_routing_decision
    rw [hp]
    simp [getField, hv]

/-- C3 (witness). -/
theorem C3_witness :
    ∃ x xs, (parse_routing_decision "garbage" "hi").agents_to_call
      = JVal.jarr (x :: xs) :=
  (C3_amended "hi" "garbage").1 rfl

/-- C4 (counterexample): a non-email input with domain-ethics score 2 and
weather score exactly 1 routes to the weather agent alone, not to the
ethics agent: the ladder has no score-2 tier, a single weather keyword wins
first. -/
theorem C4_counterexample :
    topicScore ethics_words "bias and fairness in rain prediction" = 2 ∧
    topicScore weather_words "bias and fairness in rain prediction" = 1 ∧
    is_email_request "bias and fairness in rain prediction" = false ∧
    fallback_routing "bias and fairness in rain prediction"
      = ⟨["weather_agent"], "Weather-related keywords detected", false,
          some "weather_agent"⟩ ∧
    (fallback_routing "bias and fairness in rain prediction").agents_to_call
      ≠ ["ai_ethics_agent"] := by
  refine ⟨by decide, by decide, by decide, by decide, by decide⟩

/-- C4 (amended): the ladder of `_fallback_routing` tests, in order, weather,
domain-ethics, support, each with a single-keyword (score ≥ 1) threshold —
there is no score-2 tier and no question-word condition — and first match
wins; the default is direct handling. -/
theorem C4_amended (user_input : String)
    (h : is_email_request user_input = false) :
    (1 ≤ topicScore weather_words user_input →
      fallback_routing user_input
        = ⟨["weather_agent"], "Weather-related keywords detected", false,
            some "weather_agent"⟩) ∧
    (topicScore weather_words user_input = 0 →
      1 ≤ topicScore ethics_words user_input →
      fallback_routing user_input
        = ⟨["ai_ethics_agent"], "AI ethics keywords detected", false,
            some "ai_ethics_agent"⟩) ∧
    (topicScore weather_words user_input = 0 →
      topicScore ethics_words user_input = 0 →
      1 ≤ topicScore support_words user_input →
      fallback_routing user_input
        = ⟨["qna_agent"], "Support-related keywords detected", false,
            some "qna_agent"⟩) ∧
    (topicScore weather_words user_input = 0 →
      topicScore ethics_words user_input = 0 →
      topicScore support_words user_input = 0 →
      fallback_routing user_input
        = ⟨["orchestrator_direct"],
            "No specific agent keywords found, handling directly", false,
            some "orchestrator_direct"⟩) := by
  have hzero : ∀ ws : List String, topicScore ws user_input = 0 →
      anyKeyword ws user_input = false := by
    intro ws h0
    cases hA : anyKeyword ws user_input
    · rfl
    · have h1 := (anyKeyword_iff_score ws user_input).1 hA
      omega
  refine ⟨?_, ?_, ?_, ?_⟩
  · intro h1
    have hw := (anyKeyword_iff_score weather_words user_input).2 h1
    simp [fallback_routing, hw, h]
  · intro h0 h1
    have hw := hzero _ h0
    have he := (anyKeyword_iff_score ethics_words user_input).2 h1
    simp [fallback_routing, hw, he, h]
  · intro h0 h0e h1
    have hw := hzero _ h0
    have he := hzero _ h0e
    have hq := (anyKeyword_iff_score support_words user_input).2 h1
    simp [fallback_routing, hw, he, hq, h]
  · intro h0 h0e h0q
    have hw := hzero _ h0
    have he := hzero _ h0e
    have hq := hzero _ h0q
    simp [fallback_routing, hw, he, hq, h]

/-- C4 (witness). -/
theorem C4_witness :
    fallback_routing "will it rain"
      = ⟨["weather_agent"], "Weather-related keywords detected", false,
          some "weather_agent"⟩ :=
  (C4_amended "will it rain" (by decide)).1 (by decide)

/-- C5 (counterexample): a responder that returns the empty string
successfully yields `success = true` with an empty response text, so
`success = false` is not equivalent to "response text is empty". -/
theorem C5_counterexample :
    (call_agent_with_metrics "qna_agent" (Except.ok "")).success = true ∧
    (call_agent_with_metrics "qna_agent" (Except.ok "")).response = "" :=
  ⟨rfl, rfl⟩

/-- C5 (amended): the invariant that holds of every metrics-wrapped
response: `success = false` exactly when the error field is set, and a
failed response always has empty text; a successful response may have empty
text, and the error string of a failure may itself be empty. -/
theorem C5_amended (agent_name : String) (outcome : Except String String) :
    ((call_agent_with_metrics agent_name outcome).success = false ↔
      ((call_agent_with_metrics agent_name outcome).error).isSome = true) ∧
    ((call_agent_with_metrics agent_name outcome).success = false →
      (call_agent_with_metrics agent_name outcome).response = "") := by
  cases outcome <;> simp [call_agent_with_metrics]

/-- C5 (witness): instantiated at an exception whose string form is empty. -/
theorem C5_witness :
    (call_agent_with_metrics "weather_agent" (Except.error "")).response = "" :=
  (C5_amended "weather_agent" (Except.error "")).2 rfl

/-- C6 (counterexample): a well-formed reply whose `agents_to_call` carries
a wrong-typed value (the number 5) is not recovered by the fallback: the
value is passed through and the decision differs from the rule-based
fallback decision. -/
theorem C6_counterexample :
    (parse_routing_decision "\x7b\"agents_to_call\": 5\x7d" "hi").agents_to_call
      = JVal.jnum "5" ∧
    (toDyn (fallback_routing "hi")).agents_to_call
      = JVal.jarr [JVal.jstr "orchestrator_direct"] ∧
    parse_routing_decision "\x7b\"agents_to_call\": 5\x7d" "hi"
      ≠ toDyn (fallback_routing "hi") := by
  refine ⟨rfl, rfl, fun hEq => ?_⟩
  exact JVal.noConfusion
    (show JVal.jnum "5" = JVal.jarr [JVal.jstr "orchestrator_direct"] from
      congrArg RoutingDecisionD.agents_to_call hEq)

/-- C6 (amended): decode failures — no brace-delimited JSON object or a
malformed slice — always land in the rule-based fallback for the original
input, and the parser never raises (it is a total function); but wrong-typed
field values inside a well-formed object are passed through, not recovered. -/
theorem C6_amended (s user_input : String) (h : parsedObj s = none) :
    parse_routing_decision s user_input = toDyn (fallback_routing user_input) :=
  parse_routing_decision_of_none s user_input h

/-- C6 (witness). -/
theorem C6_witness :
    parse_routing_decision "oops" "hello" = toDyn (fallback_routing "hello") :=
  C6_amended "oops" "hello" rfl

/-- C10: a single-agent decision naming an unknown agent does not raise an
unknown-agent error: the request is handled directly, with exactly the
direct handler's outcome and a single direct-handling invocation. -/
theorem C10_confirmed (env : AgentEnv) (user_input agent_name : String)
    (h : agent_name ∉ ["weather_agent", "ai_ethics_agent", "qna_agent",
      "support_email_agent", "orchestrator_direct", "magentic_orchestration"]) :
    execute_single_agent_workflow env user_input (JVal.jstr agent_name)
      = (env.direct, [Event.invoke "orchestrator_direct"]) := by
  simp only [List.mem_cons, List.not_mem_nil, or_false, not_or] at h
  obtain ⟨h1, h2, h3, h4, h5, h6⟩ := h
  simp [execute_single_agent_workflow, h1, h2, h3, h4, h5, h6]

/-- C10 (witness). -/
theorem C10_witness :
    execute_single_agent_workflow envAllOk "hi" (JVal.jstr "research_agent")
      = (Except.ok "direct reply", [Event.invoke "orchestrator_direct"]) :=
  C10_confirmed envAllOk "hi" "research_agent" (by decide)

/-- C8 (counterexample): in the content-then-email shape with every content
responder failing, the result is the email-formatted wrap of the direct
handler's content — not what the direct handler alone would have produced. -/
theorem C8_counterexample :
    (execute_content_then_email_workflow envWeatherDown "ask"
      [JVal.jstr "weather_agent"]).1
      = Except.ok "EMAIL:Question: ask\n\nAnswer: direct reply" ∧
    (execute_single_agent_workflow envWeatherDown "ask"
      (JVal.jstr "orchestrator_direct")).1 = Except.ok "direct reply" ∧
    (execute_content_then_email_workflow envWeatherDown "ask"
      [JVal.jstr "weather_agent"]).1
      ≠ (execute_single_agent_workflow envWeatherDown "ask"
          (JVal.jstr "orchestrator_direct")).1 := by
  refine ⟨rfl, rfl, fun hEq => ?_⟩
  have h' : (Except.ok "EMAIL:Question: ask\n\nAnswer: direct reply" :
      Except String String) = Except.ok "direct reply" := hEq
  exact absurd (Except.ok.inj h') (by decide)

/-- C8 (amended): when every responder of a batch fails, the standard
multi-agent shape returns exactly what the direct handler alone would have
produced; the content-then-email shape instead returns the email formatter
applied to the question/answer wrap of the direct handler's content (either
call's failure propagating). -/
theorem C8_amended (env : AgentEnv) (user_input : String) (agents : List JVal)
    (h : successResponses env agents = []) :
    (execute_standard_multi_agent_workflow env user_input agents).1
      = (execute_single_agent_workflow env user_input
          (JVal.jstr "orchestrator_direct")).1 ∧
    (execute_content_then_email_workflow env user_input agents).1
      = (match env.direct with
         | Except.ok content => env.email (qa_wrap user_input content)
         | Except.error e => Except.error e) := by
  constructor
  · simp [execute_standard_multi_agent_workflow, h, execute_single_agent_workflow]
  · simp only [execute_content_then_email_workflow, h, if_pos]
    cases hd : env.direct <;> simp [hd]

/-- C8 (witness). -/
theorem C8_witness :
    (execute_standard_multi_agent_workflow envWeatherDown "ask"
      [JVal.jstr "weather_agent"]).1
      = (execute_single_agent_workflow envWeatherDown "ask"
          (JVal.jstr "orchestrator_direct")).1 :=
  (C8_amended envWeatherDown "ask" [JVal.jstr "weather_agent"] (by decide)).1

/-- C7 (counterexample): a 3-responder batch with exactly one raising and
two succeeding with non-empty texts can still return the empty string: the
synthesis call may itself succeed with an empty reply, which is returned
verbatim. -/
theorem C7_counterexample :
    contentResult envSynthEmpty "weather_agent" = Except.error "boom" ∧
    contentResult envSynthEmpty "ai_ethics_agent" = Except.ok "E" ∧
    contentResult envSynthEmpty "qna_agent" = Except.ok "Q" ∧
    (execute_standard_multi_agent_workflow envSynthEmpty "ask"
      [JVal.jstr "weather_agent", JVal.jstr "ai_ethics_agent",
        JVal.jstr "qna_agent"]).1 = Except.ok "" :=
  ⟨rfl, rfl, rfl, rfl⟩

/-- C7 (amended): with at least one survivor the standard multi-agent shape
never raises; the raising responder is isolated into a failed response; on a
synthesis-call failure the result is the deterministic concatenation of
exactly the survivors, which contains every survivor's text and is non-empty
whenever the survivors' texts are; when the synthesis call succeeds its
output is returned verbatim (and may be empty). -/
theorem C7_amended (env : AgentEnv) (user_input : String) (agents : List JVal)
    (hne : successResponses env agents ≠ []) :
    (∃ s, (execute_standard_multi_agent_workflow env user_input agents).1
      = Except.ok s) ∧
    (∀ e, env.synth (synthesis_prompt user_input (successResponses env agents)
        (failedSummaries env agents)) = Except.error e →
      (execute_standard_multi_agent_workflow env user_input agents).1
        = Except.ok (simple_synthesis user_input (successResponses env agents))) ∧
    (∀ r, r ∈ successResponses env agents →
      pyIn r.response (simple_synthesis user_input (successResponses env agents))
        = true) ∧
    ((∀ r ∈ successResponses env agents, r.response ≠ "") →
      simple_synthesis user_input (successResponses env agents) ≠ "") := by
  refine ⟨?_, ?_, ?_, ?_⟩
  · refine ⟨synthesize_agent_responses env user_input (successResponses env agents)
      (failedSummaries env agents), ?_⟩
    simp [execute_standard_multi_agent_workflow, hne]
  · intro e he
    simp [execute_standard_multi_agent_workflow, hne, synthesize_agent_responses, he]
  · intro r hr
    cases hS : successResponses env agents with
    | nil => rw [hS] at hr; cases hr
    | cons r0 rest =>
      rw [hS] at hr
      cases rest with
      | nil =>
        rcases List.mem_singleton.1 hr with rfl
        exact pyIn_refl r.response
      | cons r1 rest' =>
        show pyIn r.response
          ("Based on your request about \x27" ++ user_input ++
            "\x27, here\x27s what I found:\n" ++
            joinSep ("\n" ++ ⟨List.replicate 50 '='⟩)
              ((r0 :: r1 :: rest').map fun q =>
                "\n**" ++ agentTitle q.agent_name ++ ":**\n" ++ q.response)) = true
        apply pyIn_append_left
        apply pyIn_trans r.response ("\n**" ++ agentTitle r.agent_name ++ ":**\n"
          ++ r.response)
        · exact pyIn_append_left _ _ _ (pyIn_refl r.response)
        · exact pyIn_joinSep _ _ _
            (List.mem_map_of_mem (fun q =>
              "\n**" ++ agentTitle q.agent_name ++ ":**\n" ++ q.response) hr)
  · intro hall
    cases hS : successResponses env agents with
    | nil => exact absurd hS hne
    | cons r0 rest =>
      cases rest with
      | nil =>
        show r0.response ≠ ""
        exact hall r0 (by rw [hS]; exact List.mem_singleton.2 rfl)
      | cons r1 rest' =>
        show "Based on your request about \x27" ++ user_input ++
          "\x27, here\x27s what I found:\n" ++
          joinSep ("\n" ++ ⟨List.replicate 50 '='⟩)
            ((r0 :: r1 :: rest').map fun q =>
              "\n**" ++ agentTitle q.agent_name ++ ":**\n" ++ q.response) ≠ ""
        apply append_ne_empty_left
        apply append_ne_empty_left
        apply append_ne_empty_left
        decide

/-- C7 (witness): the deterministic fallback concatenation is produced when
the synthesis call fails. -/
theorem C7_witness :
    (execute_standard_multi_agent_workflow envSynthDown "ask"
      [JVal.jstr "weather_agent", JVal.jstr "ai_ethics_agent",
        JVal.jstr "qna_agent"]).1
      = Except.ok (simple_synthesis "ask" (successResponses envSynthDown
          [JVal.jstr "weather_agent", JVal.jstr "ai_ethics_agent",
            JVal.jstr "qna_agent"])) :=
  (C7_amended envSynthDown "ask"
    [JVal.jstr "weather_agent", JVal.jstr "ai_ethics_agent", JVal.jstr "qna_agent"]
    (by decide)).2.1 "synth down" rfl

/-- C9 (counterexample): in the zero-success fallback path of the
content-then-email workflow, a failure of the email-formatting invocation
propagates as an error instead of returning the unformatted content. -/
theorem C9_counterexample :
    execute_content_then_email_workflow envEmailDown "ask"
      [JVal.jstr "weather_agent"]
      = (Except.error "email down",
          [Event.invoke "weather_agent", Event.invoke "orchestrator_direct",
            Event.invoke "support_email_agent"]) := rfl
/-- Counting is additive over trace concatenation. -/
lemma emailEventCount_append (t1 t2 : List Event) :
    emailEventCount (t1 ++ t2) = emailEventCount t1 + emailEventCount t2 :=
  List.countP_append _ _ _

/-- The batch of content tasks never contains an email-formatting
invocation. -/
lemma emailEventCount_batch (content_agents : List JVal) :
    emailEventCount ((contentBatch content_agents).map Event.invoke) = 0 := by
  unfold emailEventCount
  rw [List.countP_map, List.countP_eq_zero]
  intro a ha
  have hm := contentBatch_mem content_agents a ha
  fin_cases hm <;> decide

/-- The trace shape of the content-then-email workflow: the whole content
batch first, then the fallback/formatting suffix. -/
lemma ctew_trace (env : AgentEnv) (user_input : String)
    (content_agents : List JVal) :
    (execute_content_then_email_workflow env user_input content_agents).2
      = (contentBatch content_agents).map Event.invoke ++
        (if successResponses env content_agents = [] then
          (match env.direct with
           | Except.error _ => [Event.invoke "orchestrator_direct"]
           | Except.ok _ =>
             [Event.invoke "orchestrator_direct", Event.invoke "support_email_agent"])
         else [Event.invoke "support_email_agent"]) := by
  unfold execute_content_then_email_workflow
  by_cases hs : successResponses env content_agents = []
  · rw [if_pos hs, if_pos hs]
    cases env.direct <;> rfl
  · rw [if_neg hs, if_neg hs]
    cases env.email (combined_content user_input (successResponses env content_agents))
      <;> rfl

/-- C9 (amended): the content batch is always issued first and carries no
email-formatting invocation; the email formatter is invoked at most once
per request, and exactly once whenever the workflow returns normally; when
at least one content responder succeeded, a failure of the single email
invocation returns the unformatted combined content — only in the
zero-success fallback path does an email failure propagate. -/
theorem C9_amended (env : AgentEnv) (user_input : String)
    (content_agents : List JVal) :
    (∃ rest, (execute_content_then_email_workflow env user_input content_agents).2
        = (contentBatch content_agents).map Event.invoke ++ rest) ∧
    emailEventCount ((contentBatch content_agents).map Event.invoke) = 0 ∧
    emailEventCount
      (execute_content_then_email_workflow env user_input content_agents).2 ≤ 1 ∧
    (∀ s, (execute_content_then_email_workflow env user_input content_agents).1
        = Except.ok s →
      emailEventCount
        (execute_content_then_email_workflow env user_input content_agents).2 = 1) ∧
    (∀ e, successResponses env content_agents ≠ [] →
      env.email (combined_content user_input (successResponses env content_agents))
        = Except.error e →
      (execute_content_then_email_workflow env user_input content_agents).1
        = Except.ok (combined_content user_input
            (successResponses env content_agents))) := by
  refine ⟨⟨_, ctew_trace env user_input content_agents⟩,
    emailEventCount_batch content_agents, ?_, ?_, ?_⟩
  · rw [ctew_trace, emailEventCount_append, emailEventCount_batch]
    by_cases hs : successResponses env content_agents = []
    · rw [if_pos hs]
      cases env.direct with
      | error e =>
        show 0 + emailEventCount [Event.invoke "orchestrator_direct"] ≤ 1
        decide
      | ok c =>
        show 0 + emailEventCount
          [Event.invoke "orchestrator_direct", Event.invoke "support_email_agent"] ≤ 1
        decide
    · rw [if_neg hs]
      decide
  · intro s hok
    rw [ctew_trace, emailEventCount_append, emailEventCount_batch]
    by_cases hs : successResponses env content_agents = []
    · rw [if_pos hs]
      cases hd : env.direct with
      | error e =>
        exfalso
        unfold execute_content_then_email_workflow at hok
        rw [if_pos hs, hd] at hok
        exact Except.noConfusion hok
      | ok c =>
        show 0 + emailEventCount
          [Event.invoke "orchestrator_direct", Event.invoke "support_email_agent"] = 1
        decide
    · rw [if_neg hs]
      decide
  · intro e hs he
    unfold execute_content_then_email_workflow
    rw [if_neg hs, he]

/-- C9 (witness): with a successful content responder, an email-formatting
failure returns the unformatted combined content. -/
theorem C9_witness :
    (execute_content_then_email_workflow envEmailOnlyDown "ask"
      [JVal.jstr "weather_agent"]).1
      = Except.ok (combined_content "ask"
          (successResponses envEmailOnlyDown [JVal.jstr "weather_agent"])) :=
  (C9_amended envEmailOnlyDown "ask" [JVal.jstr "weather_agent"]).2.2.2.2
    "email down" (by decide) rfl

set_option maxRecDepth 40000 in
/-- C2 (counterexample): the routing agent selects the weather responder
alone; the weather responder raises; `handle_request` propagates the raise
to the caller even though the direct-handling fallback was healthy — a
partial internal failure reaches the caller. -/
theorem C2_counterexample :
    (handle_request envRoutedWeatherDown "What is the weather in Paris").1
      = Except.error "boom" ∧
    envRoutedWeatherDown.direct = Except.ok "direct reply" :=
  ⟨rfl, rfl⟩

/-- C2 (amended): `handle_request` does not catch single-responder failures:
whenever routing selects exactly one of the three specialist content
responders in a single-agent workflow, the entry point returns that
responder's outcome unchanged — a raise propagates to the caller even when
the direct-handling fallback would have been available.  Failure tolerance
exists only inside the multi-agent batch shapes, the unknown-agent path and
the Magentic path. -/
theorem C2_amended (env : AgentEnv) (user_input out agent : String)
    (h1 : should_use_magentic_orchestration user_input = false)
    (h2 : env.routing = Except.ok out)
    (h3 : (parse_routing_decision out user_input).is_multi_agent
      = JVal.jbool false)
    (h4 : (parse_routing_decision out user_input).agents_to_call
      = JVal.jarr [JVal.jstr agent])
    (h5 : agent = "weather_agent" ∨ agent = "ai_ethics_agent" ∨
      agent = "qna_agent") :
    (handle_request env user_input).1 = contentResult env agent := by
  have hd : routing_step env user_input = parse_routing_decision out user_input := by
    unfold routing_step
    rw [h1, h2]
    simp
  simp only [handle_request]
  rw [hd, h3, h4]
  simp only [pyTruthy, pyIndex0]
  rcases h5 with rfl | rfl | rfl <;> rfl

set_option maxRecDepth 40000 in
/-- C2 (witness). -/
theorem C2_witness :
    (handle_request envRoutedWeatherDown "What is the weather in Paris").1
      = contentResult envRoutedWeatherDown "weather_agent" :=
  C2_amended envRoutedWeatherDown "What is the weather in Paris"
    "\x7b\"agents_to_call\": [\"weather_agent\"], \"reasoning\": \"Weather query\", \"is_multi_agent\": false, \"primary_agent\": \"weather_agent\"\x7d"
    "weather_agent" (by decide) rfl rfl rfl (Or.inl rfl)
